import Mathlib

/-!
Verification of the owlsensor serial collector (`src/owlsensor/serial_cm.py`).

The development shallowly embeds the `CMDataCollector` class: pure methods
(`parse_buffer`, `supported_values`) become Lean functions; the stateful
methods (`parse_packet`, `read_data`, `get_packet`, `connect`) become
functions on an explicit `CState` record, with the serial transport modelled
by an explicit script of events (bytes read, packets assembled, exceptions
raised).  Machine bytes are `Nat`s (the source reads single bytes, values
0..255); Python `None` becomes `Option`; the Python `float` arithmetic of
`parse_buffer` is embedded over `ℚ`, with `round(x, 1)` modelled as exact
half-to-even rounding at one decimal place.

The module `owlsensor.const` is imported by the source but is not part of
the sources; the constants it provides (`ID_REPLY`, `ID_WAIT_HISTORY`,
`PACKET_ID_*`, `CONTINUE_REQUEST`, `START_REQUEST`, `CURRENT`, ...) are
therefore modelled from the spec as an abstract `Consts` record (the spec
fixes their roles but not their values).
-/

namespace Owlsensor

/-- Modelled from the spec: `CURRENT`, the single measurement identifier
("current draw in amperes") exported by the missing `owlsensor.const`
module.  Its concrete text is irrelevant to every claim; only its identity
as a dictionary key matters. -/
def CURRENT : String := "current"

/-- `CMVALS = [CURRENT]` (serial_cm.py line 35): the list of measurement
names the decoder iterates over. -/
def CMVALS : List String := [CURRENT]

/-- The two byte orders `MSB` / `LSB` selected by the `BYTE_ORDER`
configuration key. -/
inductive ByteOrder where
  | msb
  | lsb
deriving DecidableEq, Repr

/-- The device configuration dictionary consumed by `CMDataCollector.__init__`:
record length, byte order, multiplier, per-frame timeout, baud rate, and the
per-measurement-name offsets (`config[pmname]`, `None` when undefined). -/
structure Config where
  recordLength : Nat
  byteOrder : ByteOrder
  multiplier : ℚ
  timeout : ℚ
  baudRate : Nat
  offsets : String → Option Nat

/-- The `OWL_CM160` configuration table (serial_cm.py lines 15-22):
`RECORD_LENGTH: 11, CURRENT: 8, BAUD_RATE: 250000, BYTE_ORDER: LSB,
MULTIPLIER: 0.07, TIMEOUT: 30`. -/
def OWL_CM160 : Config where
  recordLength := 11
  byteOrder := .lsb
  multiplier := 7/100
  timeout := 30
  baudRate := 250000
  offsets := fun n => if n = CURRENT then some 8 else none

/-- Python's `round` on an exact value: round half to even, returning an
integer.  Used to embed `round(res * multiplier, 1)`. -/
def pythonRound (q : ℚ) : ℤ :=
  if q - ⌊q⌋ < 1/2 then ⌊q⌋
  else if 1/2 < q - ⌊q⌋ then ⌊q⌋ + 1
  else if ⌊q⌋ % 2 = 0 then ⌊q⌋ else ⌊q⌋ + 1

/-- Rounding to one decimal place, as in `round(..., 1)`. -/
def roundTo1 (q : ℚ) : ℚ := (pythonRound (q * 10) : ℚ) / 10

/-- The two-byte combination of `parse_buffer` (serial_cm.py lines 209-214):
`sbuf[offset]*256 + sbuf[offset+1]` for MSB order, and
`sbuf[offset+1]*256 + sbuf[offset]` for LSB order.  Out-of-range indices
default to 0 (the theorems only use in-range indices, matching Python's
bounds requirement). -/
def combine16 (bo : ByteOrder) (sbuf : List Nat) (offset : Nat) : Nat :=
  match bo with
  | .msb => sbuf.getD offset 0 * 256 + sbuf.getD (offset + 1) 0
  | .lsb => sbuf.getD (offset + 1) 0 * 256 + sbuf.getD offset 0

/-- A decoded reading: the dictionary from measurement name to rounded
value built by `parse_buffer`, as an association list in insertion order. -/
abbrev Reading := List (String × ℚ)

/-- `CMDataCollector.parse_buffer` (serial_cm.py lines 203-218): for each
name in `CMVALS` whose configured offset is not `None`, combine the two
bytes at the offset per the byte order, multiply by the multiplier and
round to one decimal place. -/
def parse_buffer (C : Config) (sbuf : List Nat) : Reading :=
  CMVALS.filterMap fun pmname =>
    (C.offsets pmname).map fun offset =>
      (pmname, roundTo1 ((combine16 C.byteOrder sbuf offset : ℚ) * C.multiplier))

/-- `CMDataCollector.supported_values` (serial_cm.py lines 220-227): the
names in `CMVALS` whose configured offset is not `None`. -/
def supported_values (C : Config) : List String :=
  CMVALS.filter fun pmname => (C.offsets pmname).isSome

/-- The `DEVICE_STATES` dictionary (serial_cm.py lines 28-33). -/
def DEVICE_STATES (name : String) : Nat :=
  if name = "Unknown" then 0
  else if name = "IdentifierReceived" then 1
  else if name = "TransmittingHistory" then 2
  else 3

/-- The two outbound protocol commands written back to the transport.
The concrete byte sequences `CONTINUE_REQUEST` / `START_REQUEST` live in
the missing `owlsensor.const`; only their identity matters here. -/
inductive Cmd where
  | continueReq
  | startReq
deriving DecidableEq, Repr

/-- Modelled from the spec: the protocol constants exported by the missing
`owlsensor.const` module.  `ID_REPLY` is the ASCII identifier marker and
`ID_WAIT_HISTORY` the ASCII "waiting for history" marker (substrings
searched for in the decoded payload; since the `cp850` decoding used by the
source maps each byte to one character injectively, substring containment
in the decoded text is containment of the marker's byte sequence in the
byte slice, which is how the markers are represented here); the three
`PACKET_ID_*` bytes are the frame-type tags of byte 0. -/
structure Consts where
  ID_REPLY : List Nat
  ID_WAIT_HISTORY : List Nat
  PACKET_ID_HISTORY : Nat
  PACKET_ID_REALTIME : Nat
  PACKET_ID_HISTORY_DATA : Nat

/-- A concrete instantiation of the protocol constants, used to evaluate
claims on explicit inputs.  The true values live in the missing
`owlsensor.const` module; every theorem quantifies over `Consts`, so any
instantiation with distinct tags exercises them. -/
def KTest : Consts where
  ID_REPLY := [67, 77]
  ID_WAIT_HISTORY := [87]
  PACKET_ID_HISTORY := 0xA9
  PACKET_ID_REALTIME := 0x51
  PACKET_ID_HISTORY_DATA := 0x59

/-- `pat` matches at the head of `l` (byte-wise). -/
def leadMatch : List Nat → List Nat → Bool
  | [], _ => true
  | _ :: _, [] => false
  | p :: ps, b :: bs => p == b && leadMatch ps bs

/-- `marker in text`: the marker's bytes occur contiguously somewhere in
`l` — Python's `in` containment test on the decoded slice. -/
def hasMarker (marker : List Nat) : List Nat → Bool
  | [] => leadMatch marker []
  | b :: rest => leadMatch marker (b :: rest) || hasMarker marker rest

/-- The mutable collector state relevant to the claims: `self._data`
(cached reading), `self.last_poll`, `self.device_state`,
`self.device_found`, `self.connected`. -/
structure CState where
  data : Option Reading
  lastPoll : Option ℚ
  deviceState : Nat
  deviceFound : Bool
  connected : Bool
deriving DecidableEq

/-- The state set up by `CMDataCollector.__init__` (serial_cm.py lines
76-84): no cached data, no poll timestamp, `device_state = Unknown`,
`device_found = False`, not connected. -/
def initState : CState where
  data := none
  lastPoll := none
  deviceState := DEVICE_STATES "Unknown"
  deviceFound := false
  connected := false

/-- `str_buffer = buffer[1:10]` (serial_cm.py line 148): the slice of the
frame scanned as text — indices 1 through 9. -/
def str_slice (buffer : List Nat) : List Nat := (buffer.drop 1).take 9

/-- Lines 150-152: `if ID_REPLY in str_buffer: self.device_found = True`. -/
def idScan (K : Consts) (s : CState) (buffer : List Nat) : CState :=
  if hasMarker K.ID_REPLY (str_slice buffer) then {s with deviceFound := true} else s

/-- Lines 154-155: `if self.device_found and ID_WAIT_HISTORY in str_buffer:
send_data(CONTINUE_REQUEST)` — run against the `device_found` just updated
by the identifier scan. -/
def waitScan (K : Consts) (s1 : CState) (buffer : List Nat) : List Cmd :=
  if s1.deviceFound && hasMarker K.ID_WAIT_HISTORY (str_slice buffer)
  then [.continueReq] else []

/-- Lines 157-168: the `buffer[0]` frame-type dispatch.  `s1` and `w1` are
the state and the writes accumulated by the marker scans. -/
def tagDispatch (K : Consts) (C : Config) (s1 : CState) (w1 : List Cmd)
    (buffer : List Nat) : CState × List Cmd × Option Reading :=
  if buffer.headD 0 = K.PACKET_ID_HISTORY then
    (s1, w1 ++ (if s1.deviceFound then [.startReq] else []), none)
  else if buffer.headD 0 = K.PACKET_ID_REALTIME then
    ({s1 with deviceState := DEVICE_STATES "TransmittingRealtime"}, w1,
      some (parse_buffer C buffer))
  else if buffer.headD 0 = K.PACKET_ID_HISTORY_DATA then
    ({s1 with deviceState := DEVICE_STATES "TransmittingHistory"}, w1, none)
  else (s1, w1, none)

/-- `CMDataCollector.parse_packet` (serial_cm.py lines 142-168) as a pure
step: given the constants, configuration, current state and an assembled
buffer, return the new state, the commands written to the transport (in
order), and the optional decoded reading returned to the caller.

Mirrors the source line by line: length guard; `str_buffer = buffer[1:10]`;
`ID_REPLY` scan setting `device_found`; `ID_WAIT_HISTORY` scan (against
the possibly-updated `device_found`) writing `CONTINUE_REQUEST`; then the
`buffer[0]` tag dispatch. -/
def parse_packet (K : Consts) (C : Config) (s : CState) (buffer : List Nat) :
    CState × List Cmd × Option Reading :=
  if buffer.length ≠ C.recordLength then (s, [], none)
  else
    tagDispatch K C (idScan K s buffer) (waitScan K (idScan K s buffer) buffer) buffer

/-- `CMDataCollector.connect` (serial_cm.py lines 87-111).  `ok` abstracts
whether `open_serial_connection` succeeds or raises `SerialException`: the
method first sets `connected = False`, returns `False` on the exception,
and sets `connected = True` before returning `True` on success.  (The
poller-task bookkeeping has no effect on the modelled state.) -/
def connectStep (ok : Bool) (s : CState) : CState × Bool :=
  if ok then ({s with connected := true}, true)
  else ({s with connected := false}, false)

/-- `CMDataCollector.get_packet` (serial_cm.py lines 124-140).  The
transport is a script of byte-read completions: each loop iteration
observes the elapsed time `t` at the top-of-loop check and then awaits one
byte, whose outcome is `some b` (a byte arrived) or `none`
(`asyncio.IncompleteReadError`: the transport closed mid-read).  The result
is `some frame` when the method returns, and `none` when the script is
exhausted with the buffer incomplete — i.e. the pending `readexactly(1)`
never completes and the coroutine blocks forever. -/
def get_packet (C : Config) (sbuf : List Nat) (events : List (ℚ × Option Nat)) :
    Option (List Nat) :=
  if sbuf.length = C.recordLength then some sbuf
  else match events with
  | [] => none
  | (t, out) :: rest =>
    if C.timeout < t then some []
    else match out with
      | none => some []
      | some b => get_packet C (sbuf ++ [b]) rest

/-- One turn of the `while not finished` loop of `read_data` (serial_cm.py
lines 186-197): either `get_packet` hands back an assembled buffer
(`pkt buf`; `buf = []` is the falsy empty bytearray, which is skipped
without parsing), or a `SerialException` is raised inside the `try` block
(`serialExc`). -/
inductive CycleEvent where
  | pkt (buf : List Nat)
  | serialExc
deriving DecidableEq

/-- The `while not finished` read-cycle loop of `read_data` (serial_cm.py
lines 183-197), driven by a script of per-iteration events.  Returns
`some (state, some res)` when a parsed packet yields a reading,
`some (state, none)` when a `SerialException` aborts the cycle (the
handler sets `connected = False` and returns `None`), and `none` when the
script is exhausted without either — the loop spins forever in the source. -/
def read_cycle (K : Consts) (C : Config) (s : CState) :
    List CycleEvent → Option (CState × Option Reading)
  | [] => none
  | .serialExc :: _ => some ({s with connected := false}, none)
  | .pkt buf :: rest =>
    if buf.isEmpty then read_cycle K C s rest
    else
      match parse_packet K C s buf with
      | (s', _, some res) => some (s', some res)
      | (s', _, none) => read_cycle K C s' rest

/-- The cache-freshness test of `read_data` (serial_cm.py lines 178-180):
`last_poll is not None and (mytime - last_poll) <= 15 and _data is not None`. -/
def cacheHit (s : CState) (now : ℚ) : Bool :=
  match s.lastPoll, s.data with
  | some t, some _ => decide (now - t ≤ 15)
  | _, _ => false

/-- `CMDataCollector.read_data` (serial_cm.py lines 170-201).  `connectOk`
abstracts the outcome of `connect()` when the collector is not connected;
`now` is the `mytime` clock sample at line 177, `now2` the clock sample at
line 200; `script` drives the read-cycle loop.  Result `none` models the
loop never terminating (neither a reading nor an exception arrives). -/
def read_data (K : Consts) (C : Config) (s : CState) (connectOk : Bool)
    (now now2 : ℚ) (script : List CycleEvent) : Option (CState × Option Reading) :=
  let c := if s.connected then (s, true) else connectStep connectOk s
  if c.2 = false then some (c.1, none)
  else if cacheHit c.1 now then some (c.1, c.1.data)
  else
    match read_cycle K C c.1 script with
    | none => none
    | some (s1, none) => some (s1, none)
    | some (s1, some res) =>
      some ({s1 with data := some res, lastPoll := some now2}, some res)

/-! ## Projection lemmas for the `parse_packet` pieces -/

theorem idScan_data (K : Consts) (s : CState) (b : List Nat) :
    (idScan K s b).data = s.data := by
  unfold idScan; split_ifs <;> rfl

theorem idScan_lastPoll (K : Consts) (s : CState) (b : List Nat) :
    (idScan K s b).lastPoll = s.lastPoll := by
  unfold idScan; split_ifs <;> rfl

theorem idScan_connected (K : Consts) (s : CState) (b : List Nat) :
    (idScan K s b).connected = s.connected := by
  unfold idScan; split_ifs <;> rfl

theorem idScan_deviceState (K : Consts) (s : CState) (b : List Nat) :
    (idScan K s b).deviceState = s.deviceState := by
  unfold idScan; split_ifs <;> rfl

theorem idScan_found (K : Consts) (s : CState) (b : List Nat) :
    (idScan K s b).deviceFound = (s.deviceFound || hasMarker K.ID_REPLY (str_slice b)) := by
  unfold idScan; split_ifs <;> simp_all

theorem tagDispatch_found (K : Consts) (C : Config) (s1 : CState) (w1 : List Cmd)
    (b : List Nat) : (tagDispatch K C s1 w1 b).1.deviceFound = s1.deviceFound := by
  unfold tagDispatch; split_ifs <;> rfl

theorem tagDispatch_data (K : Consts) (C : Config) (s1 : CState) (w1 : List Cmd)
    (b : List Nat) : (tagDispatch K C s1 w1 b).1.data = s1.data := by
  unfold tagDispatch; split_ifs <;> rfl

theorem tagDispatch_lastPoll (K : Consts) (C : Config) (s1 : CState) (w1 : List Cmd)
    (b : List Nat) : (tagDispatch K C s1 w1 b).1.lastPoll = s1.lastPoll := by
  unfold tagDispatch; split_ifs <;> rfl

theorem tagDispatch_connected (K : Consts) (C : Config) (s1 : CState) (w1 : List Cmd)
    (b : List Nat) : (tagDispatch K C s1 w1 b).1.connected = s1.connected := by
  unfold tagDispatch; split_ifs <;> rfl

theorem tagDispatch_deviceState_of_ne (K : Consts) (C : Config) (s1 : CState)
    (w1 : List Cmd) (b : List Nat) (h1 : b.headD 0 ≠ K.PACKET_ID_REALTIME)
    (h2 : b.headD 0 ≠ K.PACKET_ID_HISTORY_DATA) :
    (tagDispatch K C s1 w1 b).1.deviceState = s1.deviceState := by
  unfold tagDispatch; split_ifs <;> simp_all

theorem tagDispatch_continue_mem (K : Consts) (C : Config) (s1 : CState)
    (w1 : List Cmd) (b : List Nat) :
    (Cmd.continueReq ∈ (tagDispatch K C s1 w1 b).2.1 ↔ Cmd.continueReq ∈ w1) := by
  unfold tagDispatch; split_ifs <;> simp

theorem waitScan_continue_mem (K : Consts) (s1 : CState) (b : List Nat) :
    (Cmd.continueReq ∈ waitScan K s1 b ↔
      (s1.deviceFound = true ∧ hasMarker K.ID_WAIT_HISTORY (str_slice b) = true)) := by
  unfold waitScan; split_ifs <;> simp_all

theorem tagDispatch_ret_history (K : Consts) (C : Config) (s1 : CState)
    (w1 : List Cmd) (b : List Nat) (hb : b.headD 0 = K.PACKET_ID_HISTORY) :
    (tagDispatch K C s1 w1 b).2.2 = none := by
  unfold tagDispatch; rw [hb]; simp

theorem tagDispatch_ret_realtime (K : Consts) (C : Config) (s1 : CState)
    (w1 : List Cmd) (b : List Nat) (hb : b.headD 0 = K.PACKET_ID_REALTIME)
    (hRH : K.PACKET_ID_REALTIME ≠ K.PACKET_ID_HISTORY) :
    (tagDispatch K C s1 w1 b).2.2 = some (parse_buffer C b)
    ∧ (tagDispatch K C s1 w1 b).1.deviceState =
        DEVICE_STATES "TransmittingRealtime" := by
  unfold tagDispatch; rw [hb]; simp [hRH]

theorem tagDispatch_ret_hdata (K : Consts) (C : Config) (s1 : CState)
    (w1 : List Cmd) (b : List Nat) (hb : b.headD 0 = K.PACKET_ID_HISTORY_DATA)
    (hDH : K.PACKET_ID_HISTORY_DATA ≠ K.PACKET_ID_HISTORY)
    (hDR : K.PACKET_ID_HISTORY_DATA ≠ K.PACKET_ID_REALTIME) :
    (tagDispatch K C s1 w1 b).2.2 = none
    ∧ (tagDispatch K C s1 w1 b).1.deviceState =
        DEVICE_STATES "TransmittingHistory" := by
  unfold tagDispatch; rw [hb]; simp [hDH, hDR]

theorem tagDispatch_ret_other (K : Consts) (C : Config) (s1 : CState)
    (w1 : List Cmd) (b : List Nat) (h1 : b.headD 0 ≠ K.PACKET_ID_REALTIME) :
    (tagDispatch K C s1 w1 b).2.2 = none := by
  unfold tagDispatch; split_ifs <;> simp_all

theorem parse_packet_eq_of_len (K : Consts) (C : Config) (s : CState)
    (buffer : List Nat) (hlen : buffer.length = C.recordLength) :
    parse_packet K C s buffer =
      tagDispatch K C (idScan K s buffer) (waitScan K (idScan K s buffer) buffer)
        buffer := by
  unfold parse_packet; simp [hlen]

theorem parse_packet_cache_inv (K : Consts) (C : Config) (s : CState)
    (buffer : List Nat) :
    (parse_packet K C s buffer).1.data = s.data
    ∧ (parse_packet K C s buffer).1.lastPoll = s.lastPoll
    ∧ (parse_packet K C s buffer).1.connected = s.connected := by
  unfold parse_packet
  split_ifs with h
  · exact ⟨rfl, rfl, rfl⟩
  · rw [tagDispatch_data, tagDispatch_lastPoll, tagDispatch_connected,
      idScan_data, idScan_lastPoll, idScan_connected]
    exact ⟨rfl, rfl, rfl⟩

/-! ## Claim theorems -/

/-- C1: for every frame of the configured record length and every
configured measurement name with a defined offset (here the sole name
`CURRENT`), `parse_buffer` maps that name to the 16-bit combination of the
bytes at `offset` and `offset+1` — `b[offset]*256 + b[offset+1]` for
most-significant-first order, `b[offset+1]*256 + b[offset]` for
least-significant-first — multiplied by the configured scale factor and
rounded to one decimal place; and two differing bytes yield distinct
pre-scaling integers under the two byte orders. -/
theorem claim1_value_decoder (C : Config) (sbuf : List Nat) (off : Nat)
    (_hlen : sbuf.length = C.recordLength)
    (hoff : C.offsets CURRENT = some off)
    (_hb : off + 1 < sbuf.length) :
    ((C.byteOrder = .msb →
        List.lookup CURRENT (parse_buffer C sbuf) =
          some (roundTo1 ((sbuf.getD off 0 * 256 + sbuf.getD (off + 1) 0 : ℕ) *
            C.multiplier)))
      ∧ (C.byteOrder = .lsb →
        List.lookup CURRENT (parse_buffer C sbuf) =
          some (roundTo1 ((sbuf.getD (off + 1) 0 * 256 + sbuf.getD off 0 : ℕ) *
            C.multiplier))))
    ∧ ∀ b1 b2 : Nat, b1 ≠ b2 →
        combine16 .msb [b1, b2] 0 ≠ combine16 .lsb [b1, b2] 0 := by
  constructor
  · constructor <;> intro hbo <;>
      simp [parse_buffer, CMVALS, hoff, combine16, hbo, List.lookup]
  · intro b1 b2 hne
    have e0 : ([b1, b2] : List Nat).getD 0 0 = b1 := rfl
    have e1 : ([b1, b2] : List Nat).getD (0 + 1) 0 = b2 := rfl
    simp only [combine16, e0, e1]
    omega

/-- C1 witness: the CM160 configuration (LSB order, offset 8, scale 0.07)
on a concrete 11-byte frame with bytes 0xC8 at offset 8 and 0x00 at
offset 9: the decoded current is `round(200 * 0.07, 1) = 14.0`. -/
theorem claim1_value_decoder_witness :
    List.lookup CURRENT
        (parse_buffer OWL_CM160 [81, 0, 0, 0, 0, 0, 0, 0, 200, 0, 0]) =
      some 14 := by
  have h := claim1_value_decoder OWL_CM160 [81, 0, 0, 0, 0, 0, 0, 0, 200, 0, 0] 8
    (by decide) (by decide) (by decide)
  have h2 := h.1.2 rfl
  rw [h2]
  norm_num [roundTo1, pythonRound, OWL_CM160]

/-- C10: for every frame of the configured record length, the measurement
names of the reading produced by `parse_buffer` are exactly the list
returned by `supported_values`: the configured names with a defined
offset. -/
theorem claim10_keys_eq_supported (C : Config) (sbuf : List Nat)
    (_hlen : sbuf.length = C.recordLength) :
    List.map Prod.fst (parse_buffer C sbuf) = supported_values C := by
  unfold parse_buffer supported_values CMVALS
  cases h : C.offsets CURRENT <;> simp [h]

/-- C10 witness: concrete evaluation on an 11-byte frame for the CM160
configuration. -/
theorem claim10_keys_eq_supported_witness :
    List.map Prod.fst (parse_buffer OWL_CM160 [0, 0, 0, 0, 0, 0, 0, 0, 0, 0, 0]) =
      supported_values OWL_CM160 :=
  claim10_keys_eq_supported OWL_CM160 [0, 0, 0, 0, 0, 0, 0, 0, 0, 0, 0] (by decide)

/-- C7: a frame whose length differs from the configured record length is
rejected by `parse_packet` with no state mutation (the whole collector
state — `device_found`, `device_state`, cached reading, timestamp — is
returned unchanged), nothing written to the transport, and no reading. -/
theorem claim7_wrong_length_rejected (K : Consts) (C : Config) (s : CState)
    (buffer : List Nat) (h : buffer.length ≠ C.recordLength) :
    parse_packet K C s buffer = (s, [], none) := by
  simp [parse_packet, h]

/-- C7 witness: a 3-byte frame against the 11-byte CM160 configuration. -/
theorem claim7_wrong_length_rejected_witness :
    parse_packet KTest OWL_CM160 initState [81, 0, 0] = (initState, [], none) :=
  claim7_wrong_length_rejected KTest OWL_CM160 initState [81, 0, 0] (by decide)

/-- C2 counterexample: an 11-byte frame carrying the identifier marker in
its scanned payload (and a neutral frame tag).  Dispatching it does set
`device_found = true`, but `device_state` remains `Unknown` — it is NOT
advanced to `IdentifierReceived`, contrary to the claim (the source never
assigns `DEVICE_STATES["IdentifierReceived"]`). -/
theorem claim2_counterexample :
    hasMarker KTest.ID_REPLY ((([0, 67, 77, 0, 0, 0, 0, 0, 0, 0, 0] : List Nat).drop 1).take 9)
        = true
    ∧ (parse_packet KTest OWL_CM160 initState [0, 67, 77, 0, 0, 0, 0, 0, 0, 0, 0]).1.deviceFound
        = true
    ∧ (parse_packet KTest OWL_CM160 initState [0, 67, 77, 0, 0, 0, 0, 0, 0, 0, 0]).1.deviceState
        ≠ DEVICE_STATES "IdentifierReceived" := by
  decide

/-- C2 amended: for every frame of the configured record length whose
scanned payload contains the identifier marker, `parse_packet` sets
`device_found` to true; `device_state` is NOT advanced to
`IdentifierReceived` — it is left unchanged unless the same frame's tag
dispatch sets it (realtime-data or history-data tags). -/
theorem claim2_amended_identifier_sets_found (K : Consts) (C : Config) (s : CState)
    (buffer : List Nat) (hlen : buffer.length = C.recordLength)
    (hmark : hasMarker K.ID_REPLY ((buffer.drop 1).take 9) = true) :
    (parse_packet K C s buffer).1.deviceFound = true
    ∧ (buffer.headD 0 ≠ K.PACKET_ID_REALTIME →
        buffer.headD 0 ≠ K.PACKET_ID_HISTORY_DATA →
        (parse_packet K C s buffer).1.deviceState = s.deviceState) := by
  rw [parse_packet_eq_of_len K C s buffer hlen]
  refine ⟨?_, ?_⟩
  · rw [tagDispatch_found, idScan_found]
    simp [str_slice] at hmark
    simp [str_slice, hmark]
  · intro h1 h2
    rw [tagDispatch_deviceState_of_ne K C _ _ buffer h1 h2, idScan_deviceState]

/-- C2 amended witness: the marker-bearing frame of the counterexample
sets `device_found` and leaves `device_state` untouched. -/
theorem claim2_amended_identifier_sets_found_witness :
    (parse_packet KTest OWL_CM160 initState [0, 67, 77, 0, 0, 0, 0, 0, 0, 0, 0]).1.deviceFound
        = true
    ∧ (parse_packet KTest OWL_CM160 initState
          [0, 67, 77, 0, 0, 0, 0, 0, 0, 0, 0]).1.deviceState = initState.deviceState := by
  have h := claim2_amended_identifier_sets_found KTest OWL_CM160 initState
    [0, 67, 77, 0, 0, 0, 0, 0, 0, 0, 0] (by decide) (by decide)
  exact ⟨h.1, h.2 (by decide) (by decide)⟩

/-- C3 counterexample: the claim says ALL payload bytes (1 through
frame length - 1, i.e. 1..10 for the 11-byte frame) are scanned.  But the
source scans `buffer[1:10]` — indices 1..9 only.  A frame with the
"waiting for history" marker in its last payload byte (index 10), with the
device already found, triggers no continue command. -/
theorem claim3_counterexample :
    hasMarker KTest.ID_WAIT_HISTORY (([0, 0, 0, 0, 0, 0, 0, 0, 0, 0, 87] : List Nat).drop 1)
        = true
    ∧ ({initState with deviceFound := true} : CState).deviceFound = true
    ∧ (parse_packet KTest OWL_CM160 {initState with deviceFound := true}
          [0, 0, 0, 0, 0, 0, 0, 0, 0, 0, 87]).2.1 = [] := by
  decide

/-- C3 amended: during dispatch of every frame of the configured record
length, the bytes scanned for the markers are exactly the `[1:10]` slice —
indices 1 through 9, which for the 11-byte CM160 frame is every payload
byte except the last — independently of the frame-type tag: `device_found`
ends true exactly when it was already true or the identifier marker occurs
in that slice, and a continue command is written exactly when the device
is found (counting a find in this same frame) and the "waiting for
history" marker occurs in that slice. -/
theorem claim3_amended_scan_slice (K : Consts) (C : Config) (s : CState)
    (buffer : List Nat) (hlen : buffer.length = C.recordLength) :
    ((parse_packet K C s buffer).1.deviceFound = true
        ↔ (s.deviceFound = true ∨ hasMarker K.ID_REPLY ((buffer.drop 1).take 9) = true))
    ∧ (Cmd.continueReq ∈ (parse_packet K C s buffer).2.1
        ↔ ((parse_packet K C s buffer).1.deviceFound = true
            ∧ hasMarker K.ID_WAIT_HISTORY ((buffer.drop 1).take 9) = true)) := by
  rw [parse_packet_eq_of_len K C s buffer hlen]
  rw [tagDispatch_continue_mem, waitScan_continue_mem, tagDispatch_found, idScan_found]
  simp [str_slice]

/-- C3 amended witness: a frame carrying the wait marker at index 9 (the
last scanned position), device already found: the continue command is
written. -/
theorem claim3_amended_scan_slice_witness :
    Cmd.continueReq ∈ (parse_packet KTest OWL_CM160 {initState with deviceFound := true}
        [0, 0, 0, 0, 0, 0, 0, 0, 0, 87, 0]).2.1 := by
  have h := claim3_amended_scan_slice KTest OWL_CM160 {initState with deviceFound := true}
    [0, 0, 0, 0, 0, 0, 0, 0, 0, 87, 0] (by decide)
  exact h.2.mpr ⟨h.1.mpr (Or.inl rfl), by decide⟩

/-- With a defined offset for `CURRENT`, the decoded reading is the
non-empty singleton dictionary. -/
theorem parse_buffer_ne_nil (C : Config) (sbuf : List Nat) (off : Nat)
    (hoff : C.offsets CURRENT = some off) : parse_buffer C sbuf ≠ [] := by
  simp [parse_buffer, CMVALS, hoff]

/-- C5: for every frame of the configured record length (with the
realtime, history and history-data tags pairwise distinct, and the
`CURRENT` offset defined as in the CM160 table), `parse_packet` returns a
non-empty reading iff byte 0 is the realtime-data tag; a realtime frame
also sets `device_state = TransmittingRealtime` and returns exactly
`parse_buffer`'s result; history-request and history-data frames return no
reading, and a history-data frame sets `device_state =
TransmittingHistory`. -/
theorem claim5_tag_dispatch (K : Consts) (C : Config) (s : CState)
    (buffer : List Nat) (off : Nat)
    (hlen : buffer.length = C.recordLength)
    (hoff : C.offsets CURRENT = some off)
    (hRH : K.PACKET_ID_REALTIME ≠ K.PACKET_ID_HISTORY)
    (hDH : K.PACKET_ID_HISTORY_DATA ≠ K.PACKET_ID_HISTORY)
    (hDR : K.PACKET_ID_HISTORY_DATA ≠ K.PACKET_ID_REALTIME) :
    ((∃ l, (parse_packet K C s buffer).2.2 = some l ∧ l ≠ []) ↔
        buffer.headD 0 = K.PACKET_ID_REALTIME)
    ∧ (buffer.headD 0 = K.PACKET_ID_REALTIME →
        (parse_packet K C s buffer).2.2 = some (parse_buffer C buffer)
        ∧ (parse_packet K C s buffer).1.deviceState =
            DEVICE_STATES "TransmittingRealtime")
    ∧ (buffer.headD 0 = K.PACKET_ID_HISTORY →
        (parse_packet K C s buffer).2.2 = none)
    ∧ (buffer.headD 0 = K.PACKET_ID_HISTORY_DATA →
        (parse_packet K C s buffer).2.2 = none
        ∧ (parse_packet K C s buffer).1.deviceState =
            DEVICE_STATES "TransmittingHistory") := by
  have hne := parse_buffer_ne_nil C buffer off hoff
  rw [parse_packet_eq_of_len K C s buffer hlen]
  refine ⟨⟨?_, ?_⟩, ?_, ?_, ?_⟩
  · rintro ⟨l, hl, -⟩
    by_contra hR
    rw [tagDispatch_ret_other K C _ _ buffer hR] at hl
    exact Option.noConfusion hl
  · intro hR
    have h := tagDispatch_ret_realtime K C (idScan K s buffer)
      (waitScan K (idScan K s buffer) buffer) buffer hR hRH
    exact ⟨parse_buffer C buffer, h.1, hne⟩
  · intro hR
    exact tagDispatch_ret_realtime K C _ _ buffer hR hRH
  · intro hH
    exact tagDispatch_ret_history K C _ _ buffer hH
  · intro hD
    exact tagDispatch_ret_hdata K C _ _ buffer hD hDH hDR

/-- C5 witness: a realtime-tagged CM160 frame yields the non-empty decoded
reading and the `TransmittingRealtime` state. -/
theorem claim5_tag_dispatch_witness :
    (parse_packet KTest OWL_CM160 initState [81, 0, 0, 0, 0, 0, 0, 0, 200, 0, 0]).2.2 =
      some (parse_buffer OWL_CM160 [81, 0, 0, 0, 0, 0, 0, 0, 200, 0, 0])
    ∧ (parse_packet KTest OWL_CM160 initState
          [81, 0, 0, 0, 0, 0, 0, 0, 200, 0, 0]).1.deviceState =
        DEVICE_STATES "TransmittingRealtime" := by
  have h := claim5_tag_dispatch KTest OWL_CM160 initState
    [81, 0, 0, 0, 0, 0, 0, 0, 200, 0, 0] 8 (by decide) (by decide)
    (by decide) (by decide) (by decide)
  exact h.2.1 (by decide)

/-- `parse_packet` never clears `device_found`. -/
theorem parse_packet_found_mono (K : Consts) (C : Config) (s : CState)
    (buffer : List Nat) (h : s.deviceFound = true) :
    (parse_packet K C s buffer).1.deviceFound = true := by
  unfold parse_packet
  split_ifs with hl
  · exact h
  · rw [tagDispatch_found, idScan_found, h]
    rfl

/-- The read-cycle loop never clears `device_found`. -/
theorem read_cycle_found_mono (K : Consts) (C : Config) :
    ∀ (script : List CycleEvent) (s s' : CState) (r : Option Reading),
      s.deviceFound = true → read_cycle K C s script = some (s', r) →
      s'.deviceFound = true := by
  intro script
  induction script with
  | nil => intro s s' r _ hrun; simp [read_cycle] at hrun
  | cons e rest ih =>
    intro s s' r hfound hrun
    cases e with
    | serialExc =>
      simp [read_cycle] at hrun
      rw [← hrun.1]
      exact hfound
    | pkt buf =>
      by_cases hb : buf.isEmpty
      · simp [read_cycle, hb] at hrun
        exact ih s s' r hfound hrun
      · simp [read_cycle, hb] at hrun
        rcases hp : parse_packet K C s buf with ⟨sp, w, rp⟩
        have hfp : sp.deviceFound = true := by
          have := parse_packet_found_mono K C s buf hfound
          rw [hp] at this
          exact this
        rw [hp] at hrun
        cases rp with
        | some res =>
          simp at hrun
          rw [← hrun.1]
          exact hfp
        | none =>
          simp at hrun
          exact ih sp s' r hfp hrun

/-- C9: `device_found` is monotonic.  Initial construction makes it false;
thereafter no operation clears it: `parse_packet` preserves it, `connect`
preserves it (in particular reconnection after a transport failure), and
any terminating `read_data` call (through connect, the cache, and the
read-cycle loop) preserves it. -/
theorem claim9_device_found_monotonic (K : Consts) (C : Config) :
    initState.deviceFound = false
    ∧ (∀ (s : CState) (buffer : List Nat), s.deviceFound = true →
        (parse_packet K C s buffer).1.deviceFound = true)
    ∧ (∀ (s : CState) (ok : Bool), s.deviceFound = true →
        (connectStep ok s).1.deviceFound = true)
    ∧ (∀ (s : CState) (ok : Bool) (now now2 : ℚ) (script : List CycleEvent)
        (s' : CState) (r : Option Reading), s.deviceFound = true →
        read_data K C s ok now now2 script = some (s', r) →
        s'.deviceFound = true) := by
  refine ⟨rfl, fun s buffer h => parse_packet_found_mono K C s buffer h, ?_, ?_⟩
  · intro s ok h
    unfold connectStep
    split_ifs <;> simp_all
  · intro s ok now now2 script s' r hfound hrun
    unfold read_data at hrun
    set c := if s.connected then (s, true) else connectStep ok s with hc
    have hcf : c.1.deviceFound = true := by
      rw [hc]
      split_ifs with hsc
      · exact hfound
      · unfold connectStep
        split_ifs <;> simp_all
    by_cases h2 : c.2 = false
    · simp [h2] at hrun
      rw [← hrun.1]
      exact hcf
    · simp [h2] at hrun
      by_cases h3 : cacheHit c.1 now = true
      · simp [h3] at hrun
        rw [← hrun.1]
        exact hcf
      · simp [h3] at hrun
        rcases hcyc : read_cycle K C c.1 script with _ | ⟨s1, r1⟩
        · rw [hcyc] at hrun
          simp at hrun
        · have hs1 : s1.deviceFound = true :=
            read_cycle_found_mono K C script c.1 s1 r1 hcf hcyc
          rw [hcyc] at hrun
          cases r1 with
          | none =>
            simp at hrun
            rw [← hrun.1]
            exact hs1
          | some res =>
            simp at hrun
            rw [← hrun.1]
            exact hs1

/-- A read cycle that terminates with no reading did so through the
`SerialException` handler: it left `connected = false` and the cache and
timestamp fields untouched. -/
theorem read_cycle_no_reading (K : Consts) (C : Config) :
    ∀ (script : List CycleEvent) (s s' : CState),
      read_cycle K C s script = some (s', none) →
      s'.connected = false ∧ s'.data = s.data ∧ s'.lastPoll = s.lastPoll := by
  intro script
  induction script with
  | nil => intro s s' h; simp [read_cycle] at h
  | cons e rest ih =>
    intro s s' h
    cases e with
    | serialExc =>
      simp [read_cycle] at h
      rw [← h]
      exact ⟨rfl, rfl, rfl⟩
    | pkt buf =>
      by_cases hb : buf.isEmpty
      · simp [read_cycle, hb] at h
        exact ih s s' h
      · simp [read_cycle, hb] at h
        rcases hp : parse_packet K C s buf with ⟨sp, w, rp⟩
        have hinv := parse_packet_cache_inv K C s buf
        rw [hp] at h hinv
        cases rp with
        | some res => simp at h
        | none =>
          simp at h
          have := ih sp s' h
          exact ⟨this.1, this.2.1.trans hinv.1, this.2.2.trans hinv.2.1⟩

/-- C4: on a connected collector, if a cached reading exists and the
elapsed time since the last successful read is at most 15 time-units,
`read_data` returns the cached reading, identical to the previous result,
with the state unchanged and without consuming any transport event
(the result is the same for every script); otherwise (`cacheHit` false:
window elapsed or no cached reading) it runs the full read cycle and, on
success, overwrites the cached reading and the timestamp. -/
theorem claim4_read_cache (K : Consts) (C : Config) (s : CState) (ok : Bool)
    (now now2 : ℚ) (script : List CycleEvent) (hconn : s.connected = true) :
    (∀ d t, s.data = some d → s.lastPoll = some t → now - t ≤ 15 →
        read_data K C s ok now now2 script = some (s, some d))
    ∧ (cacheHit s now = false →
        ∀ s1 res, read_cycle K C s script = some (s1, some res) →
          read_data K C s ok now now2 script =
            some ({s1 with data := some res, lastPoll := some now2}, some res)) := by
  constructor
  · intro d t hd ht hle
    have hcache : cacheHit s now = true := by
      unfold cacheHit
      rw [ht, hd]
      simpa using hle
    unfold read_data
    rw [if_pos hconn]
    simp [hcache, hd]
  · intro hmiss s1 res hcyc
    unfold read_data
    rw [if_pos hconn]
    simp [hmiss, hcyc]

/-- C4 witness: a fresh cache (`last_poll = 0`, `now = 10`) returns the
cached reading on an arbitrary script; a stale cache (`now = 100`) with a
script whose first packet is a realtime frame performs the cycle and
overwrites cache and timestamp. -/
theorem claim4_read_cache_witness :
    read_data KTest OWL_CM160
        { data := some [(CURRENT, 14)], lastPoll := some 0, deviceState := 0,
          deviceFound := true, connected := true } true 10 12
        [CycleEvent.serialExc] =
      some ({ data := some [(CURRENT, 14)], lastPoll := some 0, deviceState := 0,
              deviceFound := true, connected := true }, some [(CURRENT, 14)]) :=
  (claim4_read_cache KTest OWL_CM160
    { data := some [(CURRENT, 14)], lastPoll := some 0, deviceState := 0,
      deviceFound := true, connected := true } true 10 12
    [CycleEvent.serialExc] (by decide)).1 [(CURRENT, 14)] 0 rfl rfl (by norm_num)

/-- C6: on a connected collector past the freshness window, a
`SerialException` during the read cycle makes `read_data` mark the
connection closed and return no reading — returning normally rather than
propagating — with the cached reading and timestamp untouched; and every
terminating `read_data` call that produces no reading leaves the cache,
the timestamp unchanged (and arose from the exception handler, so the
connection is marked closed). -/
theorem claim6_serial_failure (K : Consts) (C : Config) (s : CState) (ok : Bool)
    (now now2 : ℚ) (hconn : s.connected = true) (hmiss : cacheHit s now = false) :
    (∀ rest, read_data K C s ok now now2 (CycleEvent.serialExc :: rest) =
        some ({s with connected := false}, none))
    ∧ (∀ (script : List CycleEvent) (s' : CState),
        read_data K C s ok now now2 script = some (s', none) →
        s'.connected = false ∧ s'.data = s.data ∧ s'.lastPoll = s.lastPoll) := by
  constructor
  · intro rest
    unfold read_data
    rw [if_pos hconn]
    simp [hmiss, read_cycle]
  · intro script s' h
    unfold read_data at h
    rw [if_pos hconn] at h
    simp [hmiss] at h
    rcases hcyc : read_cycle K C s script with _ | ⟨s1, r1⟩
    · rw [hcyc] at h
      simp at h
    · rw [hcyc] at h
      cases r1 with
      | none =>
        simp at h
        rw [← h]
        exact read_cycle_no_reading K C script s s1 hcyc
      | some res => simp at h

/-- C6 witness: a connected, stale-cache collector hit by a
`SerialException` on the first cycle iteration. -/
theorem claim6_serial_failure_witness :
    read_data KTest OWL_CM160
        { data := some [(CURRENT, 14)], lastPoll := some 0, deviceState := 0,
          deviceFound := true, connected := true } true 100 101 [CycleEvent.serialExc] =
      some ({ data := some [(CURRENT, 14)], lastPoll := some 0, deviceState := 0,
              deviceFound := true, connected := false }, none) :=
  (claim6_serial_failure KTest OWL_CM160
    { data := some [(CURRENT, 14)], lastPoll := some 0, deviceState := 0,
      deviceFound := true, connected := true } true 100 101 (by decide)
    (by norm_num [cacheHit])).1 []

/-- C9 witness: after a marker frame sets `device_found`, a failing
reconnect (transport failure) preserves it. -/
theorem claim9_device_found_monotonic_witness :
    (connectStep false
        (parse_packet KTest OWL_CM160 initState [0, 67, 77, 0, 0, 0, 0, 0, 0, 0, 0]).1).1.deviceFound
      = true :=
  (claim9_device_found_monotonic KTest OWL_CM160).2.2.1
    (parse_packet KTest OWL_CM160 initState [0, 67, 77, 0, 0, 0, 0, 0, 0, 0, 0]).1 false
    (by decide)

/-- Whenever `get_packet` returns, the frame is complete (configured
record length) or empty — never partial.  Stated for every starting
buffer. -/
theorem get_packet_complete (C : Config) :
    ∀ (events : List (ℚ × Option Nat)) (sbuf res : List Nat),
      get_packet C sbuf events = some res →
      res.length = C.recordLength ∨ res = [] := by
  intro events
  induction events with
  | nil =>
    intro sbuf res h
    unfold get_packet at h
    split_ifs at h with hfull
    cases h
    exact Or.inl hfull
  | cons e rest ih =>
    intro sbuf res h
    rcases e with ⟨t, out⟩
    unfold get_packet at h
    split_ifs at h with hfull
    · cases h
      exact Or.inl hfull
    · simp only at h
      split_ifs at h with ht
      · cases h
        exact Or.inr rfl
      · cases out with
        | none =>
          simp at h
          rw [← h]
          exact Or.inr rfl
        | some b => exact ih (sbuf ++ [b]) res h

/-- If the script contains an event whose top-of-loop check happens past
the timeout, or a transport-close (`IncompleteReadError`), `get_packet`
returns rather than blocking. -/
theorem get_packet_returns (C : Config) :
    ∀ (events : List (ℚ × Option Nat)) (sbuf : List Nat),
      (∃ e ∈ events, C.timeout < e.1 ∨ e.2 = none) →
      ∃ res, get_packet C sbuf events = some res := by
  intro events
  induction events with
  | nil =>
    intro sbuf h
    simp at h
  | cons e rest ih =>
    intro sbuf h
    rcases e with ⟨t, out⟩
    unfold get_packet
    split_ifs with hfull
    · exact ⟨sbuf, rfl⟩
    · by_cases ht : C.timeout < t
      · simp [ht]
      · cases out with
        | none => simp [ht]
        | some b =>
          simp only [ht, if_false]
          apply ih (sbuf ++ [b])
          rcases h with ⟨e', he', hcond⟩
          rcases List.mem_cons.mp he' with he' | he'
          · rw [he'] at hcond
            rcases hcond with hcond | hcond
            · exact absurd hcond ht
            · exact Option.noConfusion hcond
          · exact ⟨e', he', hcond⟩

/-- C8 counterexample to the claim as stated: a transport that delivers
three bytes and then neither delivers another byte nor closes.  The
timeout is checked only at the top of the loop, before each
`readexactly(1)`; once the script is exhausted the pending read never
completes and `get_packet` blocks forever (result `none` in the
embedding), instead of returning an empty frame when the 30-unit timeout
elapses as the claim asserts. -/
theorem claim8_counterexample :
    get_packet OWL_CM160 [] [(1, some 81), (2, some 0), (3, some 0)] = none := by
  decide

/-- C8 amended: `get_packet` never returns a partial frame — any returned
frame is of exactly the configured record length or empty; the empty
frame is returned when a top-of-loop check (performed before each byte
read) sees elapsed time past the configured timeout, or when the
transport closes mid-read; partial bytes accumulate only in the local
buffer of the call, so an empty return discards them; and whenever the
script reaches an event past the timeout or a transport close, the call
returns instead of blocking.  (If the transport neither delivers a byte
nor closes, the call blocks indefinitely — the timeout alone does not
bound it, which is where the original claim fails.) -/
theorem claim8_amended_assembly (C : Config) (events : List (ℚ × Option Nat)) :
    (∀ res, get_packet C [] events = some res →
        res.length = C.recordLength ∨ res = [])
    ∧ (∀ t out rest, events = (t, out) :: rest → 0 < C.recordLength →
        C.timeout < t → get_packet C [] events = some [])
    ∧ (∀ t rest, events = (t, none) :: rest → 0 < C.recordLength →
        ¬ C.timeout < t → get_packet C [] events = some [])
    ∧ ((∃ e ∈ events, C.timeout < e.1 ∨ e.2 = none) →
        ∃ res, get_packet C [] events = some res) := by
  refine ⟨fun res h => get_packet_complete C events [] res h, ?_, ?_,
    fun h => get_packet_returns C events [] h⟩
  · intro t out rest hev hrec ht
    subst hev
    unfold get_packet
    have h0 : ¬ ([] : List Nat).length = C.recordLength := by
      simpa using (Nat.ne_of_lt hrec)
    rw [if_neg h0]
    simp [ht]
  · intro t rest hev hrec ht
    subst hev
    unfold get_packet
    have h0 : ¬ ([] : List Nat).length = C.recordLength := by
      simpa using (Nat.ne_of_lt hrec)
    rw [if_neg h0]
    simp [ht]

/-- C8 amended witness: on the CM160 configuration, a first check already
past the 30-unit timeout yields the empty frame. -/
theorem claim8_amended_assembly_witness :
    get_packet OWL_CM160 [] [((31 : ℚ), some 5)] = some [] :=
  (claim8_amended_assembly OWL_CM160 [((31 : ℚ), some 5)]).2.1 31 (some 5) []
    rfl (by decide) (by norm_num [OWL_CM160])

end Owlsensor
